import Mathlib

/-!
# carbonifer-stress: the fleet stress coordinator (`main.go`)

A shallow embedding of the HTTP handlers of `main.go` and of the helpers they
call.  The handlers talk to the outside world (the `pgrep` binary, `kill(2)`,
`exec.Cmd.Start`, outbound `http.Get`, the gopsutil samplers, the consul
catalog); every such call is an oracle of the environment `Env`, and every
effect a handler performs is recorded, in program order, in a trace of
`Event`s.  The two package-level variables `stressCmd` and `stderr` form the
explicit `State` threaded through `stressHandler`.
-/

namespace CarboniferStress

/-! ## Go library functions used by `main.go` -/

/-- The two sentinel errors a `strconv.NumError` can wrap. -/
inductive NumErrKind where
  | ErrSyntax
  | ErrRange
  deriving DecidableEq, Repr

/-- Value of a run of decimal digits, most significant first (the accumulation
loop `n = n*10 + int(ch - 48)` of `strconv`). -/
def digitsValue (ds : List Char) : Nat :=
  ds.foldl (fun n ch => n * 10 + (ch.toNat - 48)) 0

/-- Go `strconv.Atoi` on a platform whose `int` is 64 bits wide: an optional
single sign, then one or more ASCII decimal digits.  Anything else is a syntax
error with value 0; a magnitude that does not fit `int` is a range error whose
value is the nearest bound of the type. -/
def Atoi (s : String) : Int × Option NumErrKind :=
  let cs := s.data
  let neg : Bool := cs.head? == some '-'
  let ds : List Char :=
    if cs.head? == some '-' || cs.head? == some '+' then cs.tail else cs
  if ds.isEmpty then (0, some NumErrKind.ErrSyntax)
  else if !ds.all Char.isDigit then (0, some NumErrKind.ErrSyntax)
  else
    let un := digitsValue ds
    if !neg && un ≥ 2 ^ 63 then ((2 : Int) ^ 63 - 1, some NumErrKind.ErrRange)
    else if neg && un > 2 ^ 63 then (-(2 : Int) ^ 63, some NumErrKind.ErrRange)
    else (if neg then -(un : Int) else (un : Int), none)

/-- The verb `%d` of `fmt` applied to an `int`: decimal, with a leading minus
sign for a negative number. -/
def fmtD (i : Int) : String := toString i

/-- Go `unicode.IsSpace`. -/
def isSpace (c : Char) : Bool :=
  let n := c.toNat
  (9 ≤ n && n ≤ 13) || n == 32 || n == 0x85 || n == 0xA0 || n == 0x1680 ||
  (0x2000 ≤ n && n ≤ 0x200a) || n == 0x2028 || n == 0x2029 || n == 0x202f ||
  n == 0x205f || n == 0x3000

/-- Worker of `fields`: `cur` is the field being read, in reverse. -/
def fieldsAux : List Char → List Char → List String
  | [], cur => if cur.isEmpty then [] else [String.mk cur.reverse]
  | c :: cs, cur =>
    if isSpace c then
      (if cur.isEmpty then fieldsAux cs [] else String.mk cur.reverse :: fieldsAux cs [])
    else fieldsAux cs (c :: cur)

/-- Go `strings.Fields`: the maximal runs of non-space characters. -/
def fields (s : String) : List String := fieldsAux s.data []

/-- Go `strings.Join`. -/
def join (xs : List String) (sep : String) : String := sep.intercalate xs

/-- Go map indexing `m[k]` on a `map[string]string` and `url.Values.Get`: the
first value stored under the key, the empty string when there is none.  A
query string is the list of its `key=value` pairs in order of appearance. -/
def lookup (m : List (String × String)) (k : String) : String :=
  match m.find? (fun p => p.1 == k) with
  | some p => p.2
  | none => ""

/-! ## The response writer -/

/-- An `http.ResponseWriter` that records what it is given, as
`httptest.ResponseRecorder` does: the status code once the header has been
written and the body so far.  Writing to it never fails. -/
structure ResponseWriter where
  status : Option Nat
  body : String
  deriving DecidableEq, Repr

/-- The writer a handler is handed: nothing sent yet. -/
def ResponseWriter.fresh : ResponseWriter := ⟨none, ""⟩

/-- `w.WriteHeader(code)`: only the first call counts. -/
def ResponseWriter.WriteHeader (w : ResponseWriter) (code : Nat) : ResponseWriter :=
  match w.status with
  | some _ => w
  | none => ⟨some code, w.body⟩

/-- `w.Write(b)` and `fmt.Fprintf(w, ...)`: the first write sends status 200
when no header was written before. -/
def ResponseWriter.Write (w : ResponseWriter) (b : String) : ResponseWriter :=
  ⟨some (w.status.getD 200), w.body ++ b⟩

/-- The status code the client receives. -/
def ResponseWriter.code (w : ResponseWriter) : Nat := w.status.getD 200

/-- Go `http.Error(w, msg, code)`: header with `code`, then `msg` and a newline. -/
def httpError (w : ResponseWriter) (msg : String) (code : Nat) : ResponseWriter :=
  (w.WriteHeader code).Write (msg ++ "\n")

/-- `http.StatusInternalServerError`. -/
def StatusInternalServerError : Nat := 500

/-! ## Effects -/

/-- One operand of a `log.Printf` / `log.Println` call. -/
inductive LogArg where
  | str (s : String)
  | int (i : Int)
  | err (e : String)
  | numErr (num : String) (kind : NumErrKind)
  deriving DecidableEq, Repr

/-- The observable effects of the handlers, recorded in program order. -/
inductive Event where
  /-- A `log.Printf(format, args...)` or `log.Println(args...)` call. -/
  | log (format : String) (args : List LogArg)
  /-- Running `pgrep -f stress-ng` and collecting its output. -/
  | pgrep
  /-- The call `syscall.Kill(pid, syscall.SIGTERM)`. -/
  | kill (pid : Int)
  /-- The call `stressCmd.Start()` on a command with these arguments. -/
  | start (args : List String)
  /-- Spawning the goroutine that waits for the started process to exit. -/
  | goWait
  /-- The call `http.Get(url)`. -/
  | httpGet (url : String)
  deriving DecidableEq, Repr

/-- What the outside world answers to the calls a handler makes. -/
structure Env where
  /-- Result of `exec.Command("pgrep", "-f", "stress-ng").Output()`. -/
  pgrepOutput : Except String String
  /-- Result of `syscall.Kill(pid, SIGTERM)`: `none` when the signal was sent. -/
  kill : Int → Option String
  /-- Result of `Start()` on a command with the given arguments: the pid of
  the new process, or the error. -/
  start : List String → Except String Nat
  /-- Result of `http.Get(url)` followed by reading the whole body. -/
  httpGet : String → Except String String

/-! ## Package-level state: `stressCmd` and `stderr` -/

/-- The fields of `exec.Cmd` that `main.go` reads or that `Start` and `Wait`
set: `Process` is nil until `Start` succeeds, `ProcessState` is nil until
`Wait` has returned. -/
structure Cmd where
  Args : List String
  Process : Option Nat
  ProcessState : Option Int
  deriving DecidableEq, Repr

/-- Go `exec.Command(name, arg...)`: a command that has not been started. -/
def Command (name : String) (arg : List String) : Cmd := ⟨name :: arg, none, none⟩

/-- The package-level variables `stressCmd` (nil is `none`) and `stderr`. -/
structure State where
  stressCmd : Option Cmd
  stderr : String
  deriving DecidableEq, Repr

/-- The test of line 150:
`stressCmd != nil && stressCmd.Process != nil && stressCmd.ProcessState == nil`. -/
def running (stressCmd : Option Cmd) : Bool :=
  match stressCmd with
  | none => false
  | some c => c.Process.isSome && c.ProcessState.isNone

/-- An inbound request: the route variables `mux.Vars(r)` and the parsed
query `r.URL.Query()`. -/
structure Request where
  vars : List (String × String)
  query : List (String × String)
  deriving DecidableEq, Repr

/-- What a handler leaves behind: the package state, the response and the
effects it performed. -/
structure Outcome where
  state : State
  w : ResponseWriter
  trace : List Event
  deriving DecidableEq, Repr

/-! ## `stopAllStressProcesses` (lines 112-136) -/

/-- The loop of lines 121-134 over the fields of the `pgrep` output. -/
def killLoop (env : Env) : List String → List Event
  | [] => []
  | pidStr :: pids =>
    match Atoi pidStr with
    | (_, some kind) =>
      Event.log "Error converting PID to integer: %v" [LogArg.numErr pidStr kind]
        :: killLoop env pids
    | (pid, none) =>
      match env.kill pid with
      | some e =>
        Event.kill pid
          :: Event.log "Error stopping stress-ng process with PID %d: %v"
              [LogArg.int pid, LogArg.err e]
          :: killLoop env pids
      | none => Event.kill pid :: killLoop env pids

/-- Source function `stopAllStressProcesses`: list the pids with `pgrep`, send
each SIGTERM. -/
def stopAllStressProcesses (env : Env) : List Event :=
  Event.pgrep ::
    match env.pgrepOutput with
    | Except.error e => [Event.log "Error getting stress-ng process PIDs: %v" [LogArg.err e]]
    | Except.ok out => killLoop env (fields out)

/-! ## `stressHandler` (lines 138-221) -/

/-- The command line assembled in lines 161-168. -/
def cmdStr (cpu ram storage : Int) : String :=
  let cmdStr := "stress-ng"
  let cmdStr := cmdStr ++ (" --cpu 0 --cpu-load " ++ fmtD cpu)
  let cmdStr :=
    if ram > 0 then cmdStr ++ (" --vm " ++ fmtD ram ++ " --vm-bytes " ++ fmtD ram ++ "M")
    else cmdStr
  let cmdStr :=
    if storage > 0 then
      cmdStr ++ (" --hdd " ++ fmtD storage ++ " --hdd-bytes " ++ fmtD storage ++ "M")
    else cmdStr
  cmdStr

/-- The outbound URL assembled in lines 193-202. -/
def forwardURL (inst : String) (query : List (String × String)) (cpu ram storage : Int) :
    String :=
  let url := "http://" ++ inst ++ "/stress?"
  let url := if lookup query "cpu" != "" then url ++ ("cpu=" ++ fmtD cpu ++ "&") else url
  let url := if lookup query "ram" != "" then url ++ ("ram=" ++ fmtD ram ++ "&") else url
  let url :=
    if lookup query "storage" != "" then url ++ ("storage=" ++ fmtD storage) else url
  url

/-- Source function `stressHandler`. -/
def stressHandler (env : Env) (st : State) (w : ResponseWriter) (r : Request) : Outcome :=
  let w := w.Write "Calling /stress...\n"
  let inst := lookup r.vars "instance"
  let cpu := (Atoi (lookup r.query "cpu")).1
  let ram := (Atoi (lookup r.query "ram")).1
  let storage := (Atoi (lookup r.query "storage")).1
  if inst == "" then
    let stopped : List Event :=
      if running st.stressCmd then
        Event.log "Stopping existing stress-ng process..." [] :: stopAllStressProcesses env
      else []
    if cpu == 0 && ram == 0 && storage == 0 then
      ⟨st, w.Write "No stress applied, current stress-ng process stopped\n", stopped⟩
    else
      let c := Command "sh" ["-c", cmdStr cpu ram storage]
      match env.start c.Args with
      | Except.error e =>
        ⟨⟨some c, st.stderr⟩, w,
          stopped ++ [Event.start c.Args,
            Event.log "Error stressing current instance: %v" [LogArg.err e],
            Event.log "Stderr: %s" [LogArg.str st.stderr]]⟩
      | Except.ok pid =>
        ⟨⟨some ⟨c.Args, some pid, none⟩, st.stderr⟩,
          w.Write "Applied stress on current instance\n",
          stopped ++ [Event.start c.Args, Event.goWait]⟩
  else
    let url := forwardURL inst r.query cpu ram storage
    match env.httpGet url with
    | Except.error e =>
      ⟨st, w, [Event.httpGet url,
        Event.log "Error stressing instance %s: %v" [LogArg.str inst, LogArg.err e]]⟩
    | Except.ok body =>
      ⟨st, (w.Write ("Applied stress on instance: " ++ inst ++ "\n")).Write body,
        [Event.httpGet url]⟩

/-- The goroutine of lines 180-187 from the moment the process `pid` it waits
for has exited: `stressCmd.Wait()` returns `err` after storing the exit state
`exit` in the `ProcessState` of the handle it was called on, and the outcome is
logged.  What the process wrote to its standard error is in the buffer
`stderr` by then.  A handle that `stressCmd` no longer refers to is out of
reach of line 150, so `stressCmd` is then as before. -/
def waitGoroutine (st : State) (pid : Nat) (exit : Int) (err : Option String)
    (written : String) : State × List Event :=
  let logged : Event :=
    match err with
    | some e => Event.log "stress-ng command finished with error: %v" [LogArg.err e]
    | none => Event.log "stress-ng command finished successfully" []
  match st.stressCmd with
  | some c =>
    if c.Process == some pid && c.ProcessState.isNone then
      (⟨some ⟨c.Args, c.Process, some exit⟩, st.stderr ++ written⟩, [logged])
    else (⟨some c, st.stderr ++ written⟩, [logged])
  | none => (⟨none, st.stderr ++ written⟩, [logged])

/-! ## `getStats` and `usageHandler` (lines 83-110, 223-262) -/

/-- Source type `Stats`; `F` stands for `float64`. -/
structure Stats (F : Type) where
  CPU : F
  Memory : Nat
  Storage : Nat

/-- The three gopsutil samples: `cpu.Percent(0, false)`, the `Used` field of
`mem.VirtualMemory()` and the `Used` field of `disk.Usage("/")`. -/
structure Sampler (F : Type) where
  cpuPercent : Except String (List F)
  virtualMemoryUsed : Except String Nat
  diskUsageUsed : Except String Nat

/-- Source function `getStats`. -/
def getStats {F : Type} [Zero F] (s : Sampler F) : Except String (Stats F) :=
  match s.cpuPercent with
  | Except.error e => Except.error e
  | Except.ok cpuPercent =>
    let cpu : F :=
      match cpuPercent with
      | x :: _ => x
      | [] => 0
    match s.virtualMemoryUsed with
    | Except.error e => Except.error e
    | Except.ok memUsed =>
      match s.diskUsageUsed with
      | Except.error e => Except.error e
      | Except.ok diskUsed => Except.ok ⟨cpu, memUsed, diskUsed⟩

/-- Source function `usageHandler`; `marshal` is `json.Marshal` on `Stats`. -/
def usageHandler {F : Type} [Zero F] (env : Env) (s : Sampler F)
    (marshal : Stats F → Except String String) (w : ResponseWriter) (r : Request) :
    ResponseWriter × List Event :=
  let inst := lookup r.vars "instance"
  if inst == "" then
    match getStats s with
    | Except.error e => (httpError w e StatusInternalServerError, [])
    | Except.ok stats =>
      match marshal stats with
      | Except.error e => (httpError w e StatusInternalServerError, [])
      | Except.ok response => (w.Write response, [])
  else
    let url := "http://" ++ inst ++ "/usage"
    match env.httpGet url with
    | Except.error e =>
      (w, [Event.httpGet url,
        Event.log "Error stressing instance %s: %v" [LogArg.str inst, LogArg.err e]])
    | Except.ok body => (w.Write body, [Event.httpGet url])

/-! ## `getInstances` and `instancesHandler` (lines 69-81, 264-268) -/

/-- The fields of consul `CatalogService` that line 78 mentions. -/
structure CatalogService where
  Address : String
  ServiceAddress : String
  deriving DecidableEq, Repr

/-- Source function `getInstances`; `catalog` is the result of
`consulClient.Catalog().Service(serviceName, "", nil)`. -/
def getInstances (catalog : Except String (List CatalogService)) : List String × List Event :=
  match catalog with
  | Except.error e => ([], [Event.log "Failed to get services: " [LogArg.err e]])
  | Except.ok services => (services.map (fun service => service.Address), [])

/-- Source function `instancesHandler`. -/
def instancesHandler (catalog : Except String (List CatalogService)) (w : ResponseWriter) :
    ResponseWriter × List Event :=
  let w := w.Write "Callng /instances...\n"
  let instances := getInstances catalog
  (w.Write ("Instances: " ++ join instances.1 ", " ++ "\n"), instances.2)

/-! ## Reading the forwarded query -/

/-- One `key=value` segment of a query string, cut at the first `=`. -/
def queryPair (seg : List Char) : String × String :=
  (String.mk (seg.takeWhile (fun c => c != '=')),
    String.mk (seg.dropWhile (fun c => c != '=')).tail)

/-- Worker of `parseQuery`: `cur` is the segment being read, in reverse. -/
def parseQueryAux : List Char → List Char → List (String × String)
  | [], cur => if cur.isEmpty then [] else [queryPair cur.reverse]
  | c :: cs, cur =>
    if c == '&' then
      (if cur.isEmpty then parseQueryAux cs [] else queryPair cur.reverse :: parseQueryAux cs [])
    else parseQueryAux cs (c :: cur)

/-- How the peer that receives a forwarded request reads its raw query: the
segments between `&`, empty ones skipped, each cut at its first `=`.  This is
Go `url.ParseQuery` on a raw query that contains none of `%`, `+` and `;`. -/
def parseQuery (raw : String) : List (String × String) := parseQueryAux raw.data []

/-- The raw query of a URL as Go `url.Parse` finds it: what follows the first
`#` is the fragment and is cut off, and the query is what follows the first
`?` of the rest. -/
def urlRawQuery (url : String) : String :=
  String.mk ((url.data.takeWhile (fun c => c != '#')).dropWhile (fun c => c != '?')).tail

/-- The text that lines 194-202 append to the URL after the literal
`http://<instance>/stress?` of line 193.  It is the raw query of the outbound
URL only when the instance holds neither `?` nor `#`. -/
def forwardedQuery (query : List (String × String)) (cpu ram storage : Int) : String :=
  (if lookup query "cpu" != "" then "cpu=" ++ fmtD cpu ++ "&" else "")
    ++ (if lookup query "ram" != "" then "ram=" ++ fmtD ram ++ "&" else "")
    ++ (if lookup query "storage" != "" then "storage=" ++ fmtD storage else "")

/-- The pairs that `forwardedQuery` spells out: one for each of `cpu`, `ram`,
`storage` whose first value in the inbound query is not empty. -/
def forwardedParams (query : List (String × String)) (cpu ram storage : Int) :
    List (String × String) :=
  (if lookup query "cpu" != "" then [("cpu", fmtD cpu)] else [])
    ++ (if lookup query "ram" != "" then [("ram", fmtD ram)] else [])
    ++ (if lookup query "storage" != "" then [("storage", fmtD storage)] else [])

/-- The characters lines 194-202 can append: decimal digits, the minus sign,
the letters of the three parameter names, `=` and `&`. -/
def queryChar (c : Char) : Bool :=
  c.isDigit || "cpu=&ramstorage-".data.contains c

/-! ## Reading a trace -/

/-- The effects of lines 150-153: nothing unless the tracked handle passes
the running test. -/
def stopPrevious (env : Env) (st : State) : List Event :=
  if running st.stressCmd then
    Event.log "Stopping existing stress-ng process..." [] :: stopAllStressProcesses env
  else []

/-- The argument lists of the `Start` calls of a trace, in order. -/
def startedCommands : List Event → List (List String)
  | [] => []
  | Event.start args :: t => args :: startedCommands t
  | _ :: t => startedCommands t

/-- The pids signalled in a trace, in order. -/
def signalled : List Event → List Int
  | [] => []
  | Event.kill pid :: t => pid :: signalled t
  | _ :: t => signalled t

/-! ## Concrete scenarios -/

/-- A node on which `pgrep` lists nothing, signals are delivered, `Start`
succeeds with pid 4242 and no peer is reachable. -/
def quietEnv : Env :=
  ⟨Except.ok "", fun _ => none, fun _ => Except.ok 4242, fun _ => Except.error "no route to host"⟩

/-- The request `/stress?cpu=50&ram=0&storage=0`. -/
def cpu50 : Request := ⟨[], [("cpu", "50"), ("ram", "0"), ("storage", "0")]⟩

/-- What a node with no tracked process answers to `/stress?cpu=50&ram=0&storage=0`. -/
def targetReply : String :=
  (stressHandler quietEnv ⟨none, ""⟩ ResponseWriter.fresh cpu50).w.body

/-- A node from which the peer 10.0.0.1 is reachable and answers `targetReply`
to the forwarded request. -/
def proxyEnv : Env :=
  ⟨Except.ok "", fun _ => none, fun _ => Except.ok 4242,
    fun url =>
      if url == "http://10.0.0.1/stress?cpu=50&ram=0&storage=0" then Except.ok targetReply
      else Except.error "no route to host"⟩

/-- The request `/stress/10.0.0.1?cpu=50&ram=0&storage=0`. -/
def cpu50Via : Request :=
  ⟨[("instance", "10.0.0.1")], [("cpu", "50"), ("ram", "0"), ("storage", "0")]⟩

/-- A sampler whose disk sample fails. -/
def diskFails : Sampler Int := ⟨Except.ok [12], Except.ok 1024, Except.error "no such device"⟩

/-- A node on which `Start` always fails and `pgrep` lists pid 77. -/
def noShellEnv : Env :=
  ⟨Except.ok "77\n", fun _ => none, fun _ => Except.error "fork/exec /bin/sh: no such file",
    fun _ => Except.error "no route to host"⟩

/-- A node on which a load process with pid 4242 is running that the
coordinator did not start; signals are delivered and `Start` succeeds. -/
def orphanEnv : Env :=
  ⟨Except.ok "4242\n", fun _ => none, fun _ => Except.ok 5000,
    fun _ => Except.error "no route to host"⟩

/-- The request `/stress?cpu=50&ram=256&storage=0`. -/
def cpu50ram256 : Request := ⟨[], [("cpu", "50"), ("ram", "256"), ("storage", "0")]⟩

/-- A node whose tracked load process 77 is running and is listed by `pgrep`. -/
def busyEnv : Env :=
  ⟨Except.ok "77\n", fun _ => none, fun _ => Except.ok 5000,
    fun _ => Except.error "no route to host"⟩

/-- A node on which `pgrep` cannot be run. -/
def noPgrepEnv : Env :=
  ⟨Except.error "exec: \"pgrep\": executable file not found in $PATH", fun _ => none,
    fun _ => Except.ok 5000, fun _ => Except.error "no route to host"⟩

/-- The state in which the tracked load process 77 is running. -/
def busy : State := ⟨some ⟨["sh", "-c", "stress-ng --cpu 0 --cpu-load 50"], some 77, none⟩, ""⟩

/-! ## The branches of `stressHandler` on self -/

/-- A request on self with the zero spec returns at line 158. -/
theorem stressHandler_self_zero (env : Env) (st : State) (w : ResponseWriter) (r : Request)
    (hself : lookup r.vars "instance" = "")
    (hc : (Atoi (lookup r.query "cpu")).1 = 0) (hr : (Atoi (lookup r.query "ram")).1 = 0)
    (hs : (Atoi (lookup r.query "storage")).1 = 0) :
    stressHandler env st w r =
      ⟨st, (w.Write "Calling /stress...\n").Write
        "No stress applied, current stress-ng process stopped\n", stopPrevious env st⟩ := by
  simp [stressHandler, hself, hc, hr, hs, stopPrevious]

/-- A request on self with a non-zero spec whose `Start` fails returns at
line 177. -/
theorem stressHandler_self_start_error (env : Env) (st : State) (w : ResponseWriter)
    (r : Request) (e : String)
    (hself : lookup r.vars "instance" = "")
    (hspec : ¬ ((Atoi (lookup r.query "cpu")).1 = 0 ∧ (Atoi (lookup r.query "ram")).1 = 0
      ∧ (Atoi (lookup r.query "storage")).1 = 0))
    (hstart : env.start ["sh", "-c", cmdStr (Atoi (lookup r.query "cpu")).1
      (Atoi (lookup r.query "ram")).1 (Atoi (lookup r.query "storage")).1] = Except.error e) :
    stressHandler env st w r =
      ⟨⟨some ⟨["sh", "-c", cmdStr (Atoi (lookup r.query "cpu")).1
          (Atoi (lookup r.query "ram")).1 (Atoi (lookup r.query "storage")).1], none, none⟩,
        st.stderr⟩,
        w.Write "Calling /stress...\n",
        stopPrevious env st ++
          [Event.start ["sh", "-c", cmdStr (Atoi (lookup r.query "cpu")).1
            (Atoi (lookup r.query "ram")).1 (Atoi (lookup r.query "storage")).1],
          Event.log "Error stressing current instance: %v" [LogArg.err e],
          Event.log "Stderr: %s" [LogArg.str st.stderr]]⟩ := by
  have h : ¬ (((Atoi (lookup r.query "cpu")).1 = 0 ∧ (Atoi (lookup r.query "ram")).1 = 0)
      ∧ (Atoi (lookup r.query "storage")).1 = 0) := fun h => hspec ⟨h.1.1, h.1.2, h.2⟩
  simp only [stressHandler, hself, Command, hstart]
  simp [h, stopPrevious]

/-- A request on self with a non-zero spec whose `Start` succeeds runs to
line 189. -/
theorem stressHandler_self_start_ok (env : Env) (st : State) (w : ResponseWriter)
    (r : Request) (pid : Nat)
    (hself : lookup r.vars "instance" = "")
    (hspec : ¬ ((Atoi (lookup r.query "cpu")).1 = 0 ∧ (Atoi (lookup r.query "ram")).1 = 0
      ∧ (Atoi (lookup r.query "storage")).1 = 0))
    (hstart : env.start ["sh", "-c", cmdStr (Atoi (lookup r.query "cpu")).1
      (Atoi (lookup r.query "ram")).1 (Atoi (lookup r.query "storage")).1] = Except.ok pid) :
    stressHandler env st w r =
      ⟨⟨some ⟨["sh", "-c", cmdStr (Atoi (lookup r.query "cpu")).1
          (Atoi (lookup r.query "ram")).1 (Atoi (lookup r.query "storage")).1], some pid, none⟩,
        st.stderr⟩,
        (w.Write "Calling /stress...\n").Write "Applied stress on current instance\n",
        stopPrevious env st ++
          [Event.start ["sh", "-c", cmdStr (Atoi (lookup r.query "cpu")).1
            (Atoi (lookup r.query "ram")).1 (Atoi (lookup r.query "storage")).1],
          Event.goWait]⟩ := by
  have h : ¬ (((Atoi (lookup r.query "cpu")).1 = 0 ∧ (Atoi (lookup r.query "ram")).1 = 0)
      ∧ (Atoi (lookup r.query "storage")).1 = 0) := fun h => hspec ⟨h.1.1, h.1.2, h.2⟩
  simp only [stressHandler, hself, Command, hstart]
  simp [h, stopPrevious]

theorem startedCommands_append (a b : List Event) :
    startedCommands (a ++ b) = startedCommands a ++ startedCommands b := by
  induction a with
  | nil => rfl
  | cons x t ih => cases x <;> simp [startedCommands, ih]

theorem startedCommands_killLoop (env : Env) (pids : List String) :
    startedCommands (killLoop env pids) = [] := by
  induction pids with
  | nil => rfl
  | cons pidStr pids ih =>
    unfold killLoop
    split
    · simp [startedCommands, ih]
    · split <;> simp [startedCommands, ih]

theorem startedCommands_stopAll (env : Env) :
    startedCommands (stopAllStressProcesses env) = [] := by
  rcases env with ⟨out, k, st, g⟩
  cases out <;> simp [stopAllStressProcesses, startedCommands, startedCommands_killLoop]

theorem startedCommands_stopPrevious (env : Env) (st : State) :
    startedCommands (stopPrevious env st) = [] := by
  unfold stopPrevious
  split
  · show startedCommands (stopAllStressProcesses env) = []
    exact startedCommands_stopAll env
  · rfl

/-- Every pid that parses is signalled by the loop of lines 121-134. -/
theorem mem_signalled_killLoop (env : Env) (pids : List String) (pidStr : String) (pid : Int)
    (hmem : pidStr ∈ pids) (hpid : Atoi pidStr = (pid, none)) :
    pid ∈ signalled (killLoop env pids) := by
  induction pids with
  | nil => cases hmem
  | cons p pids ih =>
    unfold killLoop
    rcases List.mem_cons.mp hmem with h | h
    · subst h
      rw [hpid]
      dsimp only
      split <;> simp [signalled]
    · have := ih h
      split
      · simpa [signalled] using this
      · split <;> simp [signalled, this]

/-- The command line of lines 161-168, written out part by part. -/
theorem cmdStr_parts (cpu ram storage : Int) :
    cmdStr cpu ram storage =
      "stress-ng --cpu 0 --cpu-load " ++ fmtD cpu
        ++ (if ram > 0 then " --vm " ++ fmtD ram ++ " --vm-bytes " ++ fmtD ram ++ "M" else "")
        ++ (if storage > 0 then
              " --hdd " ++ fmtD storage ++ " --hdd-bytes " ++ fmtD storage ++ "M"
            else "") := by
  have h0 : "stress-ng" ++ " --cpu 0 --cpu-load " = "stress-ng --cpu 0 --cpu-load " := by decide
  unfold cmdStr
  split_ifs <;> simp only [String.append_assoc, String.append_empty] <;>
    rw [← String.append_assoc "stress-ng", h0]

/-! ## `strconv.Atoi` and `%d` -/

theorem Atoi_range (s : String) :
    -(2 : Int) ^ 63 ≤ (Atoi s).1 ∧ (Atoi s).1 ≤ 2 ^ 63 - 1 := by
  unfold Atoi
  simp only []
  split_ifs
  all_goals simp_all
  all_goals omega

theorem Atoi_syntax (s : String) (h : (Atoi s).2 = some NumErrKind.ErrSyntax) : (Atoi s).1 = 0 := by
  unfold Atoi at h ⊢
  simp only [] at h ⊢
  split_ifs at h ⊢ <;> simp_all

theorem lookup_missing (q : List (String × String)) (k : String) (h : ∀ v, (k, v) ∉ q) :
    lookup q k = "" := by
  unfold lookup
  have : q.find? (fun p => p.1 == k) = none := by
    rw [List.find?_eq_none]
    intro p hp hk
    simp at hk
    exact h p.2 (by rw [← hk]; exact hp)
  rw [this]

theorem digitChar_toNat (k : Nat) (hk : k < 10) : (Nat.digitChar k).toNat - 48 = k := by
  interval_cases k <;> decide

theorem digitChar_isDigit (k : Nat) (hk : k < 10) : (Nat.digitChar k).isDigit = true := by
  interval_cases k <;> decide

/-- Reading back the digits that `Nat.toDigitsCore` puts in front of `ds`. -/
theorem foldl_toDigitsCore (fuel : Nat) : ∀ (n : Nat) (ds : List Char), n < fuel →
    (Nat.toDigitsCore 10 fuel n ds).foldl (fun n ch => n * 10 + (ch.toNat - 48)) 0
      = ds.foldl (fun n ch => n * 10 + (ch.toNat - 48)) n := by
  induction fuel with
  | zero => intro n ds h; omega
  | succ fuel ih =>
    intro n ds h
    unfold Nat.toDigitsCore
    simp only []
    split_ifs with h0
    · have hn : n < 10 := by omega
      rw [Nat.mod_eq_of_lt hn]
      simp only [List.foldl_cons, digitChar_toNat n hn, Nat.zero_mul, Nat.zero_add]
    · rw [ih (n / 10) _ (by omega)]
      simp only [List.foldl_cons, digitChar_toNat (n % 10) (Nat.mod_lt _ (by decide))]
      congr 1
      omega

theorem digitsValue_toDigits (n : Nat) : digitsValue (Nat.toDigits 10 n) = n := by
  unfold digitsValue Nat.toDigits
  rw [foldl_toDigitsCore (n + 1) n [] (by omega)]
  rfl

theorem toDigitsCore_chars (fuel : Nat) : ∀ (n : Nat) (ds : List Char) (c : Char),
    c ∈ Nat.toDigitsCore 10 fuel n ds → c.isDigit = true ∨ c ∈ ds := by
  induction fuel with
  | zero => intro n ds c h; exact Or.inr h
  | succ fuel ih =>
    intro n ds c h
    unfold Nat.toDigitsCore at h
    simp only [] at h
    split_ifs at h with h0
    · rcases List.mem_cons.mp h with h | h
      · exact Or.inl (h ▸ digitChar_isDigit _ (Nat.mod_lt _ (by decide)))
      · exact Or.inr h
    · rcases ih _ _ _ h with h | h
      · exact Or.inl h
      · rcases List.mem_cons.mp h with h | h
        · exact Or.inl (h ▸ digitChar_isDigit _ (Nat.mod_lt _ (by decide)))
        · exact Or.inr h

theorem toDigits_isDigit (n : Nat) (c : Char) (h : c ∈ Nat.toDigits 10 n) : c.isDigit = true := by
  rcases toDigitsCore_chars (n + 1) n [] c h with h | h
  · exact h
  · cases h

theorem toDigitsCore_ne_nil (fuel n : Nat) (ds : List Char) (h : 0 < fuel) :
    Nat.toDigitsCore 10 fuel n ds ≠ [] := by
  induction fuel generalizing n ds with
  | zero => omega
  | succ fuel ih =>
    unfold Nat.toDigitsCore
    simp only []
    split_ifs with h0
    · simp
    · cases fuel with
      | zero => simp [Nat.toDigitsCore]
      | succ f => exact ih _ _ (by omega)

theorem toDigits_ne_nil (n : Nat) : Nat.toDigits 10 n ≠ [] :=
  toDigitsCore_ne_nil (n + 1) n [] (by omega)

theorem fmtD_data_ofNat (m : Nat) : (fmtD (Int.ofNat m)).data = Nat.toDigits 10 m := rfl

theorem fmtD_data_negSucc (m : Nat) :
    (fmtD (Int.negSucc m)).data = '-' :: Nat.toDigits 10 (m + 1) := rfl

theorem head_not_sign (l : List Char) (h : ∀ c ∈ l, c.isDigit = true) :
    (l.head? == some '-') = false ∧ (l.head? == some '+') = false := by
  cases l with
  | nil => exact ⟨rfl, rfl⟩
  | cons c t =>
    have hc := h c (List.mem_cons_self c t)
    have h1 : c ≠ '-' := by rintro rfl; revert hc; decide
    have h2 : c ≠ '+' := by rintro rfl; revert hc; decide
    simp [h1, h2]

/-- Printing an `int` with `%d` and reading it back with `strconv.Atoi` gives
the number again, without error. -/
theorem Atoi_fmtD (i : Int) (hlo : -(2 : Int) ^ 63 ≤ i) (hhi : i ≤ 2 ^ 63 - 1) :
    Atoi (fmtD i) = (i, none) := by
  cases i with
  | ofNat m =>
    have hd := toDigits_isDigit m
    have hd2 : ¬ ∃ x ∈ Nat.toDigits 10 m, x.isDigit = false := by
      rintro ⟨x, hx, hx2⟩
      rw [hd x hx] at hx2
      cases hx2
    have hne := toDigits_ne_nil m
    have hs := head_not_sign _ hd
    have hv := digitsValue_toDigits m
    have hm : m < 2 ^ 63 := by
      simp only [Int.ofNat_eq_coe] at hhi
      omega
    unfold Atoi
    simp only [fmtD_data_ofNat, hs.1, hs.2, hv]
    simp [hne, hd2, hv]
    omega
  | negSucc m =>
    have hd := toDigits_isDigit (m + 1)
    have hd2 : ¬ ∃ x ∈ Nat.toDigits 10 (m + 1), x.isDigit = false := by
      rintro ⟨x, hx, hx2⟩
      rw [hd x hx] at hx2
      cases hx2
    have hne := toDigits_ne_nil (m + 1)
    have hv := digitsValue_toDigits (m + 1)
    have hm : m + 1 ≤ 2 ^ 63 := by
      simp only [Int.negSucc_eq] at hlo
      omega
    unfold Atoi
    simp only [fmtD_data_negSucc, List.head?_cons, List.tail_cons, hv]
    simp [hne, hd2, hv]
    rw [if_neg (by omega)]
    simp only [Int.negSucc_eq, Prod.mk.injEq, and_true]
    omega

/-! ## The forwarded query, as the peer reads it -/

theorem parseQueryAux_append (a : List Char) (ha : ∀ c ∈ a, c ≠ '&') :
    ∀ (rest cur : List Char),
      parseQueryAux (a ++ rest) cur = parseQueryAux rest (a.reverse ++ cur) := by
  induction a with
  | nil => intro rest cur; rfl
  | cons x a ih =>
    intro rest cur
    have hx : (x == '&') = false := by simpa using ha x (List.mem_cons_self x a)
    have := ih (fun c hc => ha c (List.mem_cons_of_mem x hc)) rest (x :: cur)
    show parseQueryAux (x :: (a ++ rest)) cur = _
    simp only [parseQueryAux, hx, Bool.false_eq_true, if_false]
    rw [this]
    simp

theorem queryPair_cut (k v : List Char) (hk : ∀ c ∈ k, c ≠ '=') :
    queryPair (k ++ '=' :: v) = (String.mk k, String.mk v) := by
  unfold queryPair
  induction k with
  | nil => simp [List.takeWhile, List.dropWhile]
  | cons x k ih =>
    have hx : (x != '=') = true := by simpa using hk x (List.mem_cons_self x k)
    have := ih (fun c hc => hk c (List.mem_cons_of_mem x hc))
    simp only [Prod.mk.injEq, String.ext_iff] at this
    simp [List.takeWhile, List.dropWhile, hx, this.1, this.2]

/-- A segment `k=v&` in front of the rest of a query. -/
theorem parseQueryAux_segment (k v rest : List Char) (hk : ∀ c ∈ k, c ≠ '&' ∧ c ≠ '=')
    (hv : ∀ c ∈ v, c ≠ '&') :
    parseQueryAux (k ++ '=' :: v ++ '&' :: rest) [] =
      (String.mk k, String.mk v) :: parseQueryAux rest [] := by
  have h : ∀ c ∈ k ++ '=' :: v, c ≠ '&' := by
    intro c hc
    rcases List.mem_append.mp hc with h | h
    · exact (hk c h).1
    · rcases List.mem_cons.mp h with h | h
      · rw [h]; decide
      · exact hv c h
  rw [parseQueryAux_append _ h]
  have hne : (k ++ '=' :: v).reverse.isEmpty = false := by
    cases k <;> simp
  simp only [parseQueryAux, hne, List.append_nil, List.reverse_reverse, Bool.false_eq_true,
    if_false, beq_self_eq_true, if_true]
  rw [queryPair_cut k v (fun c hc => (hk c hc).2)]

/-- A last segment `k=v`. -/
theorem parseQueryAux_last (k v : List Char) (hk : ∀ c ∈ k, c ≠ '&' ∧ c ≠ '=')
    (hv : ∀ c ∈ v, c ≠ '&') :
    parseQueryAux (k ++ '=' :: v) [] = [(String.mk k, String.mk v)] := by
  have h : ∀ c ∈ k ++ '=' :: v, c ≠ '&' := by
    intro c hc
    rcases List.mem_append.mp hc with h | h
    · exact (hk c h).1
    · rcases List.mem_cons.mp h with h | h
      · rw [h]; decide
      · exact hv c h
  have := parseQueryAux_append _ h [] []
  rw [List.append_nil] at this
  rw [this]
  have hne : (k ++ '=' :: v).reverse.isEmpty = false := by
    cases k <;> simp
  simp only [parseQueryAux, hne, List.append_nil, List.reverse_reverse, Bool.false_eq_true,
    if_false]
  rw [queryPair_cut k v (fun c hc => (hk c hc).2)]

/-- The characters `%d` prints: decimal digits and the minus sign. -/
theorem fmtD_chars (i : Int) (c : Char) (h : c ∈ (fmtD i).data) :
    c.isDigit = true ∨ c = '-' := by
  cases i with
  | ofNat m => exact Or.inl (toDigits_isDigit m c h)
  | negSucc m =>
    rw [fmtD_data_negSucc] at h
    rcases List.mem_cons.mp h with h | h
    · exact Or.inr h
    · exact Or.inl (toDigits_isDigit (m + 1) c h)

theorem fmtD_no_separator (i : Int) (c : Char) (h : c ∈ (fmtD i).data) : c ≠ '&' := by
  rcases fmtD_chars i c h with h | h
  · rintro rfl
    revert h
    decide
  · rw [h]
    decide

/-- A forwarded parameter followed by more of the query. -/
theorem parseQuery_param (k : String) (i : Int) (rest : String)
    (hk : ∀ c ∈ k.data, c ≠ '&' ∧ c ≠ '=') :
    parseQueryAux (k ++ ("=" ++ (fmtD i ++ ("&" ++ rest)))).data [] =
      (k, fmtD i) :: parseQueryAux rest.data [] := by
  have := parseQueryAux_segment k.data (fmtD i).data rest.data hk (fmtD_no_separator i)
  simpa [String.data_append] using this

/-- A forwarded parameter with its `&` at the end of the query. -/
theorem parseQuery_param_end (k : String) (i : Int)
    (hk : ∀ c ∈ k.data, c ≠ '&' ∧ c ≠ '=') :
    parseQueryAux (k ++ ("=" ++ (fmtD i ++ "&"))).data [] = [(k, fmtD i)] := by
  have := parseQuery_param k i "" hk
  rw [String.append_empty] at this
  rw [this]
  rfl

/-- A forwarded parameter without `&` at the end of the query. -/
theorem parseQuery_param_last (k : String) (i : Int)
    (hk : ∀ c ∈ k.data, c ≠ '&' ∧ c ≠ '=') :
    parseQueryAux (k ++ ("=" ++ fmtD i)).data [] = [(k, fmtD i)] := by
  have := parseQueryAux_last k.data (fmtD i).data hk (fmtD_no_separator i)
  simpa [String.data_append] using this

/-- The peer reads from the forwarded query exactly the forwarded parameters. -/
theorem parseQuery_forwardedQuery (query : List (String × String)) (cpu ram storage : Int) :
    parseQuery (forwardedQuery query cpu ram storage) =
      forwardedParams query cpu ram storage := by
  have e1 : "cpu=" = "cpu" ++ "=" := by decide
  have e2 : "ram=" = "ram" ++ "=" := by decide
  have e3 : "storage=" = "storage" ++ "=" := by decide
  have k1 : ∀ c ∈ "cpu".data, c ≠ '&' ∧ c ≠ '=' := by decide
  have k2 : ∀ c ∈ "ram".data, c ≠ '&' ∧ c ≠ '=' := by decide
  have k3 : ∀ c ∈ "storage".data, c ≠ '&' ∧ c ≠ '=' := by decide
  unfold parseQuery forwardedQuery forwardedParams
  rw [e1, e2, e3]
  split_ifs <;>
    simp only [String.append_assoc, String.append_empty, String.empty_append,
      parseQuery_param "cpu" _ _ k1, parseQuery_param "ram" _ _ k2,
      parseQuery_param_end "cpu" _ k1, parseQuery_param_end "ram" _ k2,
      parseQuery_param_last "storage" _ k3, List.append_nil, List.nil_append,
      List.singleton_append] <;>
    rfl

/-- The outbound URL is the address part followed by the forwarded query. -/
theorem forwardURL_eq (inst : String) (query : List (String × String))
    (cpu ram storage : Int) :
    forwardURL inst query cpu ram storage =
      "http://" ++ inst ++ "/stress?" ++ forwardedQuery query cpu ram storage := by
  unfold forwardURL forwardedQuery
  split_ifs <;> simp only [String.append_assoc, String.append_empty, String.empty_append]

/-- A request for a named instance makes one outbound call, to the URL of
lines 193-202, and nothing else that reaches the network. -/
theorem stressHandler_forward_trace (env : Env) (st : State) (w : ResponseWriter)
    (r : Request) (hinst : lookup r.vars "instance" ≠ "") :
    ∃ logs, (stressHandler env st w r).trace =
      Event.httpGet (forwardURL (lookup r.vars "instance") r.query
        (Atoi (lookup r.query "cpu")).1 (Atoi (lookup r.query "ram")).1
        (Atoi (lookup r.query "storage")).1) :: logs
      ∧ ∀ e ∈ logs, ∃ format args, e = Event.log format args := by
  simp only [stressHandler, hinst, beq_iff_eq, if_false]
  split
  · exact ⟨_, rfl, by simp⟩
  · exact ⟨[], rfl, by simp⟩

/-! ## The raw query of the outbound URL -/

theorem queryChar_append (a b : String) (ha : ∀ c ∈ a.data, queryChar c = true)
    (hb : ∀ c ∈ b.data, queryChar c = true) : ∀ c ∈ (a ++ b).data, queryChar c = true := by
  intro c hc
  rw [String.data_append] at hc
  rcases List.mem_append.mp hc with h | h
  · exact ha c h
  · exact hb c h

theorem queryChar_fmtD (i : Int) : ∀ c ∈ (fmtD i).data, queryChar c = true := by
  intro c hc
  rcases fmtD_chars i c hc with h | h
  · simp [queryChar, h]
  · rw [h]
    decide

/-- Lines 194-202 append nothing but digits, minus signs, the three parameter
names, `=` and `&`. -/
theorem forwardedQuery_chars (query : List (String × String)) (cpu ram storage : Int) :
    ∀ c ∈ (forwardedQuery query cpu ram storage).data, queryChar c = true := by
  have hnil : ∀ c ∈ "".data, queryChar c = true := by decide
  have hamp : ∀ c ∈ "&".data, queryChar c = true := by decide
  have h1 : ∀ c ∈ "cpu=".data, queryChar c = true := by decide
  have h2 : ∀ c ∈ "ram=".data, queryChar c = true := by decide
  have h3 : ∀ c ∈ "storage=".data, queryChar c = true := by decide
  unfold forwardedQuery
  refine queryChar_append _ _ (queryChar_append _ _ ?_ ?_) ?_
  · split_ifs
    · exact queryChar_append _ _ (queryChar_append _ _ h1 (queryChar_fmtD cpu)) hamp
    · exact hnil
  · split_ifs
    · exact queryChar_append _ _ (queryChar_append _ _ h2 (queryChar_fmtD ram)) hamp
    · exact hnil
  · split_ifs
    · exact queryChar_append _ _ h3 (queryChar_fmtD storage)
    · exact hnil

theorem queryChar_plain (c : Char) (h : queryChar c = true) :
    c ≠ '#' ∧ c ≠ '?' ∧ c ≠ '%' ∧ c ≠ '+' ∧ c ≠ ';' := by
  refine ⟨?_, ?_, ?_, ?_, ?_⟩ <;>
    · rintro rfl
      revert h
      decide

theorem takeWhile_all {α : Type} (p : α → Bool) (l : List α) (h : ∀ x ∈ l, p x = true) :
    l.takeWhile p = l := by
  induction l with
  | nil => rfl
  | cons x t ih =>
    simp only [List.takeWhile, h x (List.mem_cons_self x t)]
    rw [ih (fun y hy => h y (List.mem_cons_of_mem x hy))]

theorem dropWhile_until {α : Type} (p : α → Bool) (l : List α) (x : α) (t : List α)
    (h : ∀ y ∈ l, p y = true) (hx : p x = false) :
    (l ++ x :: t).dropWhile p = x :: t := by
  induction l with
  | nil => simp [List.dropWhile, hx]
  | cons y l ih =>
    simp only [List.cons_append, List.dropWhile, h y (List.mem_cons_self y l)]
    exact ih (fun z hz => h z (List.mem_cons_of_mem y hz))

/-- When the instance holds neither `?` nor `#`, the raw query of the outbound
URL is the text of lines 194-202. -/
theorem urlRawQuery_forwardURL (inst : String) (query : List (String × String))
    (cpu ram storage : Int) (haddr : ∀ c ∈ inst.data, c ≠ '?' ∧ c ≠ '#') :
    urlRawQuery (forwardURL inst query cpu ram storage) =
      forwardedQuery query cpu ram storage := by
  have e : "/stress?" = "/stress" ++ "?" := by decide
  have hdata : (forwardURL inst query cpu ram storage).data =
      ("http://".data ++ inst.data ++ "/stress".data) ++
        '?' :: (forwardedQuery query cpu ram storage).data := by
    rw [forwardURL_eq, e]
    simp only [String.data_append, List.append_assoc]
    rfl
  have hq := forwardedQuery_chars query cpu ram storage
  have hlit1 : ∀ c ∈ "http://".data, c ≠ '?' ∧ c ≠ '#' := by decide
  have hlit2 : ∀ c ∈ "/stress".data, c ≠ '?' ∧ c ≠ '#' := by decide
  have hpre : ∀ c ∈ "http://".data ++ inst.data ++ "/stress".data, c ≠ '?' ∧ c ≠ '#' := by
    intro c hc
    rcases List.mem_append.mp hc with h | h
    · rcases List.mem_append.mp h with h | h
      · exact hlit1 c h
      · exact haddr c h
    · exact hlit2 c h
  have hfrag : ∀ c ∈ ("http://".data ++ inst.data ++ "/stress".data) ++
      '?' :: (forwardedQuery query cpu ram storage).data, (c != '#') = true := by
    intro c hc
    rcases List.mem_append.mp hc with h | h
    · simpa using (hpre c h).2
    · rcases List.mem_cons.mp h with h | h
      · rw [h]
        decide
      · simpa using (queryChar_plain c (hq c h)).1
  unfold urlRawQuery
  rw [hdata, takeWhile_all _ _ hfrag,
    dropWhile_until _ _ '?' _ (fun c hc => by simpa using (hpre c hc).1) (by decide)]
  rfl

/-! ## Theorems -/

/-- C7, as stated, fails: for the registry answer 10.0.0.1, 10.0.0.2 the body
of `/instances` is not exactly the `Instances:` line, because the handler
writes the line `Callng /instances...` before it. -/
theorem instances_body_not_exact :
    (instancesHandler (Except.ok [⟨"10.0.0.1", ""⟩, ⟨"10.0.0.2", ""⟩])
        ResponseWriter.fresh).1.body
      = "Callng /instances...\nInstances: 10.0.0.1, 10.0.0.2\n"
    ∧ (instancesHandler (Except.ok [⟨"10.0.0.1", ""⟩, ⟨"10.0.0.2", ""⟩])
        ResponseWriter.fresh).1.body
      ≠ "Instances: 10.0.0.1, 10.0.0.2\n"
    ∧ (instancesHandler (Except.ok []) ResponseWriter.fresh).1.body ≠ "Instances: \n" := by
  decide

/-- C7, amended: for every list of catalogued services the body of
`/instances` is the line `Callng /instances...` followed by `Instances: `, the
addresses joined with `, `, and a newline; a registry error gives the same body
as an empty list; the status is 200. -/
theorem instances_body :
    (∀ services : List CatalogService,
      (instancesHandler (Except.ok services) ResponseWriter.fresh).1 =
        ⟨some 200, "Callng /instances...\n" ++
          ("Instances: " ++ join (services.map (fun service => service.Address)) ", " ++ "\n")⟩)
    ∧ (∀ e : String,
      (instancesHandler (Except.error e) ResponseWriter.fresh).1 =
        ⟨some 200, "Callng /instances...\nInstances: \n"⟩)
    ∧ (instancesHandler (Except.ok [⟨"10.0.0.1", ""⟩, ⟨"10.0.0.2", ""⟩])
        ResponseWriter.fresh).1.body
      = "Callng /instances...\nInstances: 10.0.0.1, 10.0.0.2\n"
    ∧ (instancesHandler (Except.ok []) ResponseWriter.fresh).1.body
      = "Callng /instances...\nInstances: \n" := by
  refine ⟨?_, ?_, by decide, by decide⟩
  · intro services
    simp [instancesHandler, getInstances, ResponseWriter.Write, ResponseWriter.fresh]
  · intro e
    simp [instancesHandler, getInstances, ResponseWriter.Write, ResponseWriter.fresh]
    decide

/-- C4: `getStats` fails exactly when one of the three sub-samples fails, and
whenever it fails `usageHandler` on self answers 500 with the error text and a
newline as the whole body, whatever `json.Marshal` would have produced. -/
theorem usage_failure_surfaces {F : Type} [Zero F] (s : Sampler F) :
    ((∃ e, getStats s = Except.error e) ↔
      ((∃ e, s.cpuPercent = Except.error e) ∨ (∃ e, s.virtualMemoryUsed = Except.error e)
        ∨ (∃ e, s.diskUsageUsed = Except.error e)))
    ∧ ∀ (env : Env) (marshal : Stats F → Except String String) (r : Request) (e : String),
        lookup r.vars "instance" = "" → getStats s = Except.error e →
        usageHandler env s marshal ResponseWriter.fresh r = (⟨some 500, e ++ "\n"⟩, [])
          ∧ (usageHandler env s marshal ResponseWriter.fresh r).1.code = 500 := by
  constructor
  · rcases s with ⟨c, m, d⟩
    rcases c with ec | c <;> rcases m with em | m <;> rcases d with ed | d <;>
      simp [getStats]
  · intro env marshal r e hself hfail
    simp [usageHandler, hself, hfail, httpError, ResponseWriter.WriteHeader,
      ResponseWriter.Write, ResponseWriter.fresh, StatusInternalServerError,
      ResponseWriter.code]

/-- C4 at a sampler whose disk sample fails. -/
theorem usage_failure_surfaces_witness :
    (∃ e, getStats diskFails = Except.error e)
    ∧ usageHandler quietEnv diskFails (fun _ => Except.ok "snapshot") ResponseWriter.fresh
        ⟨[], []⟩ = (⟨some 500, "no such device\n"⟩, []) :=
  ⟨(usage_failure_surfaces diskFails).1.mpr (Or.inr (Or.inr ⟨"no such device", rfl⟩)),
    ((usage_failure_surfaces diskFails).2 quietEnv (fun _ => Except.ok "snapshot") ⟨[], []⟩
      "no such device" rfl rfl).1⟩

/-- C5, as stated, fails: in the two-node scenario with spec cpu 50, ram 0,
storage 0 the peer answers `targetReply`, and the body the forwarding node
writes to its caller is that text with two lines in front of it. -/
theorem forward_body_not_verbatim :
    targetReply = "Calling /stress...\nApplied stress on current instance\n"
    ∧ (stressHandler proxyEnv ⟨none, ""⟩ ResponseWriter.fresh cpu50Via).trace
        = [Event.httpGet "http://10.0.0.1/stress?cpu=50&ram=0&storage=0"]
    ∧ (stressHandler proxyEnv ⟨none, ""⟩ ResponseWriter.fresh cpu50Via).w.body
        = "Calling /stress...\nApplied stress on instance: 10.0.0.1\n" ++ targetReply
    ∧ (stressHandler proxyEnv ⟨none, ""⟩ ResponseWriter.fresh cpu50Via).w.body
        ≠ targetReply := by
  decide

/-- C5, amended: when the outbound call to the named instance succeeds with
body `b`, the body written to the original caller is the line
`Calling /stress...`, the line `Applied stress on instance: <instance>` and
then `b` verbatim, with nothing after it; the status is 200 and the package
state is untouched. -/
theorem forward_body (env : Env) (st : State) (r : Request) (b : String)
    (hinst : lookup r.vars "instance" ≠ "")
    (hget : env.httpGet (forwardURL (lookup r.vars "instance") r.query
      (Atoi (lookup r.query "cpu")).1 (Atoi (lookup r.query "ram")).1
      (Atoi (lookup r.query "storage")).1) = Except.ok b) :
    (stressHandler env st ResponseWriter.fresh r).w =
      ⟨some 200, "Calling /stress...\n" ++
        ("Applied stress on instance: " ++ lookup r.vars "instance" ++ "\n") ++ b⟩
    ∧ (stressHandler env st ResponseWriter.fresh r).state = st := by
  simp [stressHandler, hinst, hget, ResponseWriter.Write, ResponseWriter.fresh,
    String.append_assoc]

/-- C5 amended, in the two-node scenario. -/
theorem forward_body_witness :
    (stressHandler proxyEnv ⟨none, ""⟩ ResponseWriter.fresh cpu50Via).w =
      ⟨some 200, "Calling /stress...\n" ++
        ("Applied stress on instance: " ++ "10.0.0.1" ++ "\n") ++ targetReply⟩
    ∧ (stressHandler proxyEnv ⟨none, ""⟩ ResponseWriter.fresh cpu50Via).state = ⟨none, ""⟩ :=
  forward_body proxyEnv ⟨none, ""⟩ cpu50Via targetReply (by decide) rfl

/-- C3: when `Start` fails for a request on self with a non-zero spec, the
handle left in `stressCmd` fails the running test of line 150 and the response
is the line `Calling /stress...` alone, so it does not contain the
confirmation `Applied stress on current instance`. -/
theorem failed_start_leaves_idle (env : Env) (st : State) (r : Request) (e : String)
    (hself : lookup r.vars "instance" = "")
    (hspec : ¬ ((Atoi (lookup r.query "cpu")).1 = 0 ∧ (Atoi (lookup r.query "ram")).1 = 0
      ∧ (Atoi (lookup r.query "storage")).1 = 0))
    (hstart : env.start ["sh", "-c", cmdStr (Atoi (lookup r.query "cpu")).1
      (Atoi (lookup r.query "ram")).1 (Atoi (lookup r.query "storage")).1] = Except.error e) :
    running (stressHandler env st ResponseWriter.fresh r).state.stressCmd = false
    ∧ (stressHandler env st ResponseWriter.fresh r).w.body = "Calling /stress...\n"
    ∧ ¬ ("Applied stress on current instance".data <:+:
        (stressHandler env st ResponseWriter.fresh r).w.body.data) := by
  rw [stressHandler_self_start_error env st ResponseWriter.fresh r e hself hspec hstart]
  refine ⟨by simp [running], by simp [ResponseWriter.Write, ResponseWriter.fresh], ?_⟩
  simp only [ResponseWriter.Write, ResponseWriter.fresh]
  decide

/-- C3 at a node whose tracked process 77 is running when `Start` fails. -/
theorem failed_start_leaves_idle_witness :
    running (stressHandler noShellEnv ⟨some ⟨["sh", "-c", "stress-ng"], some 77, none⟩, ""⟩
      ResponseWriter.fresh cpu50).state.stressCmd = false
    ∧ (stressHandler noShellEnv ⟨some ⟨["sh", "-c", "stress-ng"], some 77, none⟩, ""⟩
      ResponseWriter.fresh cpu50).w.body = "Calling /stress...\n"
    ∧ ¬ ("Applied stress on current instance".data <:+:
        (stressHandler noShellEnv ⟨some ⟨["sh", "-c", "stress-ng"], some 77, none⟩, ""⟩
          ResponseWriter.fresh cpu50).w.body.data) :=
  failed_start_leaves_idle noShellEnv ⟨some ⟨["sh", "-c", "stress-ng"], some 77, none⟩, ""⟩
    cpu50 "fork/exec /bin/sh: no such file" (by decide) (by decide) rfl

/-- C1, as stated, fails: with no tracked handle, or with a tracked handle
that has terminated, a non-zero request on a node where the stray load process
4242 runs starts the new process without running `pgrep` and without
signalling 4242. -/
theorem orphan_not_terminated :
    (stressHandler orphanEnv ⟨none, ""⟩ ResponseWriter.fresh cpu50).trace
      = [Event.start ["sh", "-c", "stress-ng --cpu 0 --cpu-load 50"], Event.goWait]
    ∧ (stressHandler orphanEnv ⟨some ⟨["sh", "-c", "stress-ng"], some 77, some 0⟩, ""⟩
        ResponseWriter.fresh cpu50).trace
      = [Event.start ["sh", "-c", "stress-ng --cpu 0 --cpu-load 50"], Event.goWait]
    ∧ signalled (stressHandler orphanEnv ⟨none, ""⟩ ResponseWriter.fresh cpu50).trace = []
    ∧ signalled (stopAllStressProcesses orphanEnv) = [4242] := by
  decide

/-- C1, amended: for a non-zero request on self, when the tracked handle
passes the running test of line 150 the whole of `stopAllStressProcesses`
(which starts nothing and signals every pid that `pgrep` lists, whoever started
it) is performed before the one `Start` call; when no handle is tracked or the
tracked one has terminated, `Start` is the first effect and no process is
signalled. -/
theorem orphan_takeover_when_running (env : Env) (st : State) (r : Request)
    (hself : lookup r.vars "instance" = "")
    (hspec : ¬ ((Atoi (lookup r.query "cpu")).1 = 0 ∧ (Atoi (lookup r.query "ram")).1 = 0
      ∧ (Atoi (lookup r.query "storage")).1 = 0)) :
    (running st.stressCmd = true →
      ∃ rest, (stressHandler env st ResponseWriter.fresh r).trace =
        Event.log "Stopping existing stress-ng process..." [] ::
          (stopAllStressProcesses env ++
            Event.start ["sh", "-c", cmdStr (Atoi (lookup r.query "cpu")).1
              (Atoi (lookup r.query "ram")).1 (Atoi (lookup r.query "storage")).1] :: rest)
        ∧ startedCommands rest = [])
    ∧ startedCommands (stopAllStressProcesses env) = []
    ∧ (∀ out pidStr pid, env.pgrepOutput = Except.ok out → pidStr ∈ fields out →
        Atoi pidStr = (pid, none) → pid ∈ signalled (stopAllStressProcesses env))
    ∧ (running st.stressCmd = false →
      ∃ rest, (stressHandler env st ResponseWriter.fresh r).trace =
        Event.start ["sh", "-c", cmdStr (Atoi (lookup r.query "cpu")).1
          (Atoi (lookup r.query "ram")).1 (Atoi (lookup r.query "storage")).1] :: rest
        ∧ signalled rest = [] ∧ Event.pgrep ∉ rest) := by
  refine ⟨?_, startedCommands_stopAll env, ?_, ?_⟩
  · intro hrun
    cases hstart : env.start ["sh", "-c", cmdStr (Atoi (lookup r.query "cpu")).1
        (Atoi (lookup r.query "ram")).1 (Atoi (lookup r.query "storage")).1] with
    | error e =>
      rw [stressHandler_self_start_error env st _ r e hself hspec hstart]
      exact ⟨[Event.log "Error stressing current instance: %v" [LogArg.err e],
        Event.log "Stderr: %s" [LogArg.str st.stderr]],
        by simp [stopPrevious, hrun], by simp [startedCommands]⟩
    | ok pid =>
      rw [stressHandler_self_start_ok env st _ r pid hself hspec hstart]
      exact ⟨[Event.goWait], by simp [stopPrevious, hrun], by simp [startedCommands]⟩
  · intro out pidStr pid hout hmem hpid
    unfold stopAllStressProcesses
    rw [hout]
    simpa [signalled] using mem_signalled_killLoop env (fields out) pidStr pid hmem hpid
  · intro hrun
    cases hstart : env.start ["sh", "-c", cmdStr (Atoi (lookup r.query "cpu")).1
        (Atoi (lookup r.query "ram")).1 (Atoi (lookup r.query "storage")).1] with
    | error e =>
      rw [stressHandler_self_start_error env st _ r e hself hspec hstart]
      exact ⟨[Event.log "Error stressing current instance: %v" [LogArg.err e],
        Event.log "Stderr: %s" [LogArg.str st.stderr]],
        by simp [stopPrevious, hrun], by simp [signalled], by simp⟩
    | ok pid =>
      rw [stressHandler_self_start_ok env st _ r pid hself hspec hstart]
      exact ⟨[Event.goWait], by simp [stopPrevious, hrun], by simp [signalled], by simp⟩

/-- C1 amended, at a node whose tracked process 77 is running next to the
stray process 4242. -/
theorem orphan_takeover_when_running_witness :
    signalled (stressHandler
      ⟨Except.ok "77 4242\n", fun _ => none, fun _ => Except.ok 5000,
        fun _ => Except.error "no route to host"⟩
      ⟨some ⟨["sh", "-c", "stress-ng"], some 77, none⟩, ""⟩ ResponseWriter.fresh cpu50).trace
      = [77, 4242]
    ∧ 4242 ∈ signalled (stopAllStressProcesses
      ⟨Except.ok "77 4242\n", fun _ => none, fun _ => Except.ok 5000,
        fun _ => Except.error "no route to host"⟩) :=
  ⟨by decide,
    (orphan_takeover_when_running
      ⟨Except.ok "77 4242\n", fun _ => none, fun _ => Except.ok 5000,
        fun _ => Except.error "no route to host"⟩
      ⟨some ⟨["sh", "-c", "stress-ng"], some 77, none⟩, ""⟩ cpu50 (by decide) (by decide)).2.2.1
      "77 4242\n" "4242" 4242 rfl (by decide) (by decide)⟩

/-- C10: a request on self whose spec is not zero on all three dimensions
makes exactly one `Start` call, on `sh -c` with the command line
`stress-ng --cpu 0 --cpu-load <cpu>`, then the `--vm` part exactly when ram is
positive, then the `--hdd` part exactly when storage is positive, and nothing
else. -/
theorem command_construction (env : Env) (st : State) (r : Request) (cpu ram storage : Int)
    (hself : lookup r.vars "instance" = "")
    (hcpu : (Atoi (lookup r.query "cpu")).1 = cpu)
    (hram : (Atoi (lookup r.query "ram")).1 = ram)
    (hstorage : (Atoi (lookup r.query "storage")).1 = storage)
    (hspec : ¬ (cpu = 0 ∧ ram = 0 ∧ storage = 0)) :
    startedCommands (stressHandler env st ResponseWriter.fresh r).trace =
      [["sh", "-c",
        "stress-ng --cpu 0 --cpu-load " ++ fmtD cpu
          ++ (if ram > 0 then " --vm " ++ fmtD ram ++ " --vm-bytes " ++ fmtD ram ++ "M"
              else "")
          ++ (if storage > 0 then
                " --hdd " ++ fmtD storage ++ " --hdd-bytes " ++ fmtD storage ++ "M"
              else "")]] := by
  subst hcpu hram hstorage
  rw [← cmdStr_parts]
  cases hstart : env.start ["sh", "-c", cmdStr (Atoi (lookup r.query "cpu")).1
      (Atoi (lookup r.query "ram")).1 (Atoi (lookup r.query "storage")).1] with
  | error e =>
    rw [stressHandler_self_start_error env st _ r e hself hspec hstart,
      startedCommands_append, startedCommands_stopPrevious]
    rfl
  | ok pid =>
    rw [stressHandler_self_start_ok env st _ r pid hself hspec hstart,
      startedCommands_append, startedCommands_stopPrevious]
    rfl

/-- C10 at the request `/stress?cpu=50&ram=256&storage=0`: the command line is
`stress-ng --cpu 0 --cpu-load 50 --vm 256 --vm-bytes 256M`. -/
theorem command_construction_witness :
    startedCommands (stressHandler orphanEnv ⟨none, ""⟩ ResponseWriter.fresh cpu50ram256).trace
      = [["sh", "-c", "stress-ng --cpu 0 --cpu-load 50 --vm 256 --vm-bytes 256M"]] :=
  (command_construction orphanEnv ⟨none, ""⟩ cpu50ram256 50 256 0 (by decide) (by decide)
    (by decide) (by decide) (by decide)).trans (by decide)

/-- C8, as stated, fails: on a node whose tracked process 77 is running and on
which `pgrep` cannot be run, the zero request signals no process and assigns
nothing to `stressCmd`, so the handle passes the running test of line 150
after the call as before it, and the caller is still told that the process was
stopped. -/
theorem zero_spec_handle_still_running :
    running busy.stressCmd = true
    ∧ (stressHandler noPgrepEnv busy ResponseWriter.fresh ⟨[], []⟩).trace
        = [Event.log "Stopping existing stress-ng process..." [], Event.pgrep,
            Event.log "Error getting stress-ng process PIDs: %v"
              [LogArg.err "exec: \"pgrep\": executable file not found in $PATH"]]
    ∧ signalled (stressHandler noPgrepEnv busy ResponseWriter.fresh ⟨[], []⟩).trace = []
    ∧ running (stressHandler noPgrepEnv busy ResponseWriter.fresh ⟨[], []⟩).state.stressCmd
        = true
    ∧ (stressHandler noPgrepEnv busy ResponseWriter.fresh ⟨[], []⟩).w
        = ⟨some 200,
            "Calling /stress...\nNo stress applied, current stress-ng process stopped\n"⟩ := by
  decide

/-- C8, amended: for every supervisor state the zero request on self starts
no process and answers 200 with the line `Calling /stress...` followed by the
stopped confirmation.  The handler itself assigns nothing to `stressCmd`: when
the handle passes the running test it runs `stopAllStressProcesses`, which
signals the tracked process if `pgrep` lists it and signals nothing if `pgrep`
fails, and the Supervisor is Idle from the moment the goroutine of lines
180-187 has recorded the exit of the tracked process, after which a further
zero request does nothing.  When the handle does not pass the running test the
call does nothing at all (no `pgrep`, no signal) and the Supervisor stays
Idle. -/
theorem zero_spec_stop (env : Env) (st : State) (r : Request)
    (hself : lookup r.vars "instance" = "")
    (hc : (Atoi (lookup r.query "cpu")).1 = 0) (hr : (Atoi (lookup r.query "ram")).1 = 0)
    (hs : (Atoi (lookup r.query "storage")).1 = 0) :
    startedCommands (stressHandler env st ResponseWriter.fresh r).trace = []
    ∧ (stressHandler env st ResponseWriter.fresh r).w =
        ⟨some 200, "Calling /stress...\nNo stress applied, current stress-ng process stopped\n"⟩
    ∧ (stressHandler env st ResponseWriter.fresh r).w.code = 200
    ∧ (stressHandler env st ResponseWriter.fresh r).state = st
    ∧ (running st.stressCmd = true →
        (stressHandler env st ResponseWriter.fresh r).trace =
          Event.log "Stopping existing stress-ng process..." [] :: stopAllStressProcesses env)
    ∧ (∀ e, env.pgrepOutput = Except.error e →
        signalled (stressHandler env st ResponseWriter.fresh r).trace = [])
    ∧ (∀ c pid, st.stressCmd = some c → c.Process = some pid → c.ProcessState = none →
        (∀ out pidStr, env.pgrepOutput = Except.ok out → pidStr ∈ fields out →
          Atoi pidStr = ((pid : Int), none) →
          (pid : Int) ∈ signalled (stressHandler env st ResponseWriter.fresh r).trace)
        ∧ ∀ exit err written,
            running (waitGoroutine (stressHandler env st ResponseWriter.fresh r).state
              pid exit err written).1.stressCmd = false
            ∧ (stressHandler env
                (waitGoroutine (stressHandler env st ResponseWriter.fresh r).state
                  pid exit err written).1 ResponseWriter.fresh r).trace = [])
    ∧ (running st.stressCmd = false →
        (stressHandler env st ResponseWriter.fresh r).trace = []
        ∧ running (stressHandler env st ResponseWriter.fresh r).state.stressCmd = false) := by
  rw [stressHandler_self_zero env st _ r hself hc hr hs]
  refine ⟨startedCommands_stopPrevious env st, ?_, ?_, rfl, ?_, ?_, ?_, ?_⟩
  · simp only [ResponseWriter.Write, ResponseWriter.fresh]
    decide
  · simp [ResponseWriter.Write, ResponseWriter.fresh, ResponseWriter.code]
  · intro hrun
    simp [stopPrevious, hrun]
  · intro e he
    unfold stopPrevious stopAllStressProcesses
    rw [he]
    split <;> rfl
  · intro c pid hcmd hproc hstate
    have hrun : running st.stressCmd = true := by
      simp [running, hcmd, hproc, hstate]
    have hdone : ∀ exit err written,
        running (waitGoroutine st pid exit err written).1.stressCmd = false := by
      intro exit err written
      simp [waitGoroutine, hcmd, hproc, hstate, running]
    refine ⟨?_, ?_⟩
    · intro out pidStr hout hmem hpid
      have hk := mem_signalled_killLoop env (fields out) pidStr pid hmem hpid
      simpa [stopPrevious, hrun, stopAllStressProcesses, hout, signalled] using hk
    · intro exit err written
      refine ⟨hdone exit err written, ?_⟩
      rw [stressHandler_self_zero env _ _ r hself hc hr hs]
      simp [stopPrevious, hdone exit err written]
  · intro hrun
    simp [stopPrevious, hrun]

/-- C8 amended, at an Idle node and at a node whose tracked process 77 is
listed by `pgrep`, for the request `/stress` without parameters. -/
theorem zero_spec_stop_witness :
    ((stressHandler orphanEnv ⟨none, ""⟩ ResponseWriter.fresh ⟨[], []⟩).trace = []
      ∧ running (stressHandler orphanEnv ⟨none, ""⟩ ResponseWriter.fresh
          ⟨[], []⟩).state.stressCmd = false)
    ∧ (77 : Int) ∈ signalled (stressHandler busyEnv busy ResponseWriter.fresh ⟨[], []⟩).trace
    ∧ running (waitGoroutine (stressHandler busyEnv busy ResponseWriter.fresh ⟨[], []⟩).state
        77 (-1) (some "signal: terminated") "").1.stressCmd = false
    ∧ signalled (stressHandler noPgrepEnv busy ResponseWriter.fresh ⟨[], []⟩).trace = [] :=
  ⟨(zero_spec_stop orphanEnv ⟨none, ""⟩ ⟨[], []⟩ (by decide) (by decide) (by decide)
      (by decide)).2.2.2.2.2.2.2 (by decide),
    ((zero_spec_stop busyEnv busy ⟨[], []⟩ (by decide) (by decide) (by decide)
      (by decide)).2.2.2.2.2.2.1 _ 77 rfl rfl rfl).1 "77\n" "77" rfl (by decide) (by decide),
    (((zero_spec_stop busyEnv busy ⟨[], []⟩ (by decide) (by decide) (by decide)
      (by decide)).2.2.2.2.2.2.1 _ 77 rfl rfl rfl).2 (-1) (some "signal: terminated") "").1,
    (zero_spec_stop noPgrepEnv busy ⟨[], []⟩ (by decide) (by decide) (by decide)
      (by decide)).2.2.2.2.2.1 _ rfl⟩

/-- C6, as stated, fails: a caller who gives `cpu=abc` has `cpu=0` sent to the
peer, one who gives `cpu=007` has `cpu=7` sent, one who gives a number beyond
the `int` range has the bound of the range sent, one who gives `cpu=` with an
empty value, or `cpu=&cpu=5`, has no `cpu` sent at all, and for the instance
`10.0.0.1?cpu=9&x=` with the query `ram=1` the query of the outbound URL holds
a `cpu` the caller never gave and no `ram`. -/
theorem forwarded_value_not_preserved :
    (stressHandler quietEnv ⟨none, ""⟩ ResponseWriter.fresh
        ⟨[("instance", "10.0.0.1")], [("cpu", "abc")]⟩).trace.head?
      = some (Event.httpGet "http://10.0.0.1/stress?cpu=0&")
    ∧ lookup (parseQuery (urlRawQuery "http://10.0.0.1/stress?cpu=0&")) "cpu" = "0"
    ∧ (stressHandler quietEnv ⟨none, ""⟩ ResponseWriter.fresh
        ⟨[("instance", "10.0.0.1")], [("cpu", "007")]⟩).trace.head?
      = some (Event.httpGet "http://10.0.0.1/stress?cpu=7&")
    ∧ (stressHandler quietEnv ⟨none, ""⟩ ResponseWriter.fresh
        ⟨[("instance", "10.0.0.1")], [("cpu", "99999999999999999999")]⟩).trace.head?
      = some (Event.httpGet "http://10.0.0.1/stress?cpu=9223372036854775807&")
    ∧ (stressHandler quietEnv ⟨none, ""⟩ ResponseWriter.fresh
        ⟨[("instance", "10.0.0.1")], [("cpu", "")]⟩).trace.head?
      = some (Event.httpGet "http://10.0.0.1/stress?")
    ∧ (stressHandler quietEnv ⟨none, ""⟩ ResponseWriter.fresh
        ⟨[("instance", "10.0.0.1")], [("cpu", ""), ("cpu", "5")]⟩).trace.head?
      = some (Event.httpGet "http://10.0.0.1/stress?")
    ∧ (stressHandler quietEnv ⟨none, ""⟩ ResponseWriter.fresh
        ⟨[("instance", "10.0.0.1?cpu=9&x=")], [("ram", "1")]⟩).trace.head?
      = some (Event.httpGet "http://10.0.0.1?cpu=9&x=/stress?ram=1&")
    ∧ parseQuery (urlRawQuery "http://10.0.0.1?cpu=9&x=/stress?ram=1&")
      = [("cpu", "9"), ("x", "/stress?ram=1")] := by
  decide

/-- C6, amended: a request to `/stress/{instance}` whose instance holds
neither `?` nor `#` makes one outbound call, and the query of its URL (free of
`%`, `+` and `;`) holds each of `cpu`, `ram` and `storage` if and only if the
first value the caller's query gives for that parameter is not empty, and then
with the decimal form of the integer `strconv.Atoi` read from that first value
(0 when it is not an integer), so that the peer parses the same integer as the
forwarding node did; a parameter the caller omitted is absent from the
outbound query. -/
theorem forwarded_parameters (env : Env) (st : State) (r : Request)
    (hinst : lookup r.vars "instance" ≠ "")
    (haddr : ∀ c ∈ (lookup r.vars "instance").data, c ≠ '?' ∧ c ≠ '#') :
    ∃ url logs,
      (stressHandler env st ResponseWriter.fresh r).trace = Event.httpGet url :: logs
      ∧ (∀ e ∈ logs, ∃ format args, e = Event.log format args)
      ∧ (∃ appended, url = "http://" ++ lookup r.vars "instance" ++ "/stress?" ++ appended)
      ∧ (∀ c ∈ (urlRawQuery url).data, c ≠ '%' ∧ c ≠ '+' ∧ c ≠ ';')
      ∧ ∀ k ∈ ["cpu", "ram", "storage"],
          ((∃ v, (k, v) ∈ parseQuery (urlRawQuery url)) ↔ lookup r.query k ≠ "")
          ∧ (∀ v, (k, v) ∈ parseQuery (urlRawQuery url) →
              v = fmtD (Atoi (lookup r.query k)).1)
          ∧ ((∀ v, (k, v) ∉ r.query) → ∀ v, (k, v) ∉ parseQuery (urlRawQuery url))
          ∧ (Atoi (lookup (parseQuery (urlRawQuery url)) k)).1
              = (Atoi (lookup r.query k)).1 := by
  obtain ⟨logs, htrace, hlogs⟩ := stressHandler_forward_trace env st ResponseWriter.fresh r hinst
  refine ⟨_, logs, htrace, hlogs, ⟨_, forwardURL_eq _ _ _ _ _⟩, ?_, ?_⟩
  · rw [urlRawQuery_forwardURL _ _ _ _ _ haddr]
    intro c hc
    exact (queryChar_plain c (forwardedQuery_chars _ _ _ _ c hc)).2.2
  · have hrt : ∀ s : String, Atoi (fmtD (Atoi s).1) = ((Atoi s).1, none) :=
      fun s => Atoi_fmtD _ (Atoi_range s).1 (Atoi_range s).2
    have h0 : ∀ s : String, s = "" → (Atoi s).1 = 0 := by
      intro s hs
      rw [hs]
      decide
    intro k hk
    rw [urlRawQuery_forwardURL _ _ _ _ _ haddr, parseQuery_forwardedQuery]
    simp only [List.mem_cons, List.mem_singleton, List.not_mem_nil, or_false] at hk
    have hmiss : (∀ v, (k, v) ∉ r.query) → lookup r.query k = "" := lookup_missing r.query k
    rcases hk with rfl | rfl | rfl <;>
      by_cases h1 : lookup r.query "cpu" = "" <;>
      by_cases h2 : lookup r.query "ram" = "" <;>
      by_cases h3 : lookup r.query "storage" = "" <;>
      simp [forwardedParams, lookup, h1, h2, h3, hrt] <;>
      simp_all [lookup]

/-- C6 amended, at the request `/stress/10.0.0.1?cpu=50&ram=0&storage=0`. -/
theorem forwarded_parameters_witness :
    ∃ url logs,
      (stressHandler proxyEnv ⟨none, ""⟩ ResponseWriter.fresh cpu50Via).trace
        = Event.httpGet url :: logs
      ∧ (∀ e ∈ logs, ∃ format args, e = Event.log format args)
      ∧ (∃ appended, url = "http://" ++ lookup cpu50Via.vars "instance" ++ "/stress?" ++ appended)
      ∧ (∀ c ∈ (urlRawQuery url).data, c ≠ '%' ∧ c ≠ '+' ∧ c ≠ ';')
      ∧ ∀ k ∈ ["cpu", "ram", "storage"],
          ((∃ v, (k, v) ∈ parseQuery (urlRawQuery url)) ↔ lookup cpu50Via.query k ≠ "")
          ∧ (∀ v, (k, v) ∈ parseQuery (urlRawQuery url) →
              v = fmtD (Atoi (lookup cpu50Via.query k)).1)
          ∧ ((∀ v, (k, v) ∉ cpu50Via.query) → ∀ v, (k, v) ∉ parseQuery (urlRawQuery url))
          ∧ (Atoi (lookup (parseQuery (urlRawQuery url)) k)).1
              = (Atoi (lookup cpu50Via.query k)).1 :=
  forwarded_parameters proxyEnv ⟨none, ""⟩ cpu50Via (by decide) (by decide)

/-- C9, as stated, fails: `/stress?cpu=150&ram=-5` is parsed to cpu 150 and
ram -5 and starts the load generator with `--cpu-load 150`; `/stress?cpu=-5`
starts it with `--cpu-load -5`. -/
theorem spec_range_not_enforced :
    (Atoi (lookup [("cpu", "150"), ("ram", "-5")] "cpu")).1 = 150
    ∧ (Atoi (lookup [("cpu", "150"), ("ram", "-5")] "ram")).1 = -5
    ∧ startedCommands (stressHandler orphanEnv ⟨none, ""⟩ ResponseWriter.fresh
        ⟨[], [("cpu", "150"), ("ram", "-5")]⟩).trace
      = [["sh", "-c", "stress-ng --cpu 0 --cpu-load 150"]]
    ∧ startedCommands (stressHandler orphanEnv ⟨none, ""⟩ ResponseWriter.fresh
        ⟨[], [("cpu", "-5")]⟩).trace
      = [["sh", "-c", "stress-ng --cpu 0 --cpu-load -5"]] := by
  decide

/-- C9, amended: each of cpu, ram and storage is what `strconv.Atoi` reads
from the query value, an integer between -2^63 and 2^63-1 with no narrower
bound enforced, and it is 0 when the parameter is missing or is not a decimal
integer; a ram or storage value that is not positive never reaches the command
line, which is then the one for the value 0. -/
theorem spec_parsed_unchecked (query : List (String × String)) (k : String) :
    -(2 : Int) ^ 63 ≤ (Atoi (lookup query k)).1
    ∧ (Atoi (lookup query k)).1 ≤ 2 ^ 63 - 1
    ∧ ((∀ v, (k, v) ∉ query) → (Atoi (lookup query k)).1 = 0)
    ∧ ((Atoi (lookup query k)).2 = some NumErrKind.ErrSyntax → (Atoi (lookup query k)).1 = 0)
    ∧ (∀ cpu ram storage : Int, ram ≤ 0 → cmdStr cpu ram storage = cmdStr cpu 0 storage)
    ∧ (∀ cpu ram storage : Int, storage ≤ 0 → cmdStr cpu ram storage = cmdStr cpu ram 0) := by
  refine ⟨(Atoi_range _).1, (Atoi_range _).2, ?_, Atoi_syntax _, ?_, ?_⟩
  · intro h
    rw [lookup_missing query k h]
    decide
  · intro cpu ram storage h
    have h1 : ¬ ram > 0 := by omega
    simp [cmdStr, h1]
  · intro cpu ram storage h
    have h1 : ¬ storage > 0 := by omega
    simp [cmdStr, h1]

/-- C9 amended, at the query `cpu=150&ram=-5` and the missing parameter
`storage`. -/
theorem spec_parsed_unchecked_witness :
    (Atoi (lookup [("cpu", "150"), ("ram", "-5")] "storage")).1 = 0
    ∧ cmdStr 150 (-5) 0 = cmdStr 150 0 0 :=
  ⟨(spec_parsed_unchecked [("cpu", "150"), ("ram", "-5")] "storage").2.2.1 (by simp),
    (spec_parsed_unchecked [("cpu", "150"), ("ram", "-5")] "storage").2.2.2.2.1 150 (-5) 0
      (by decide)⟩

end CarboniferStress
